import Mathlib

/-!
# Verification of the EvaDB Weaviate vector-store adapter

Shallow embedding of `evadb/third_party/vector_stores/types.py` and
`evadb/third_party/vector_stores/weaviate.py`.  The adapter delegates all
storage and search to a remote Weaviate service; the adapter's own logic
(request shaping, response unwrapping, the dict comprehension in
`delete_object_properties`, the module-level `_weaviate_init_done` flag) is
embedded directly from the source.  The remote service's behaviour, which is
not part of this repository, is modelled from the specification where a claim
depends on it; every such definition carries a `Modelled from the spec:` doc
comment.

Python-level semantics that matter here and are embedded explicitly:
* a dataclass field without a default is a required constructor argument, so
  calling the constructor with too few arguments raises `TypeError`;
* reading a local variable that was never assigned on the taken path raises
  `UnboundLocalError`;
* subscripting `None` raises `TypeError`; a missing dict key under `[]`
  raises `KeyError`, while `.get` returns the supplied default.
-/

/-- Property values stored in an object's property dictionary. -/
inductive PVal where
  | str : String → PVal
  | num : ℚ → PVal
  | boolean : Bool → PVal
deriving DecidableEq

/-- A Python dict of object properties: association list from keys to values. -/
abbrev Obj := List (String × PVal)

/-- Python `d.get(k)` on a string-keyed dict represented as an association
list: the first binding of the key, if any. -/
def dictGet {β : Type} (m : List (String × β)) (k : String) : Option β :=
  match m with
  | [] => none
  | e :: t => if e.1 = k then some e.2 else dictGet t k

/-- Errors: Python runtime exceptions raised by the adapter code, remote-side
error statuses, and the spec's error taxonomy (`InvalidVector`,
`CorruptData`, `NotFound`). -/
inductive Err where
  | typeError : Err
  | keyError : Err
  | unboundLocalError : Err
  | assertionError : Err
  | notFound : Err
  | unexpectedStatus : Err
  | invalidVector : Err
  | corruptData : Err
deriving DecidableEq

/-- `types.py` lines 25–28: `VectorIndexQuery` dataclass. -/
structure VectorIndexQuery where
  embedding : List ℚ
  top_k : Nat
deriving DecidableEq

/-- `types.py` lines 31–35: `VectorIndexQueryResult` dataclass.  All three
fields are declared without defaults, so all three are required constructor
arguments. -/
structure VectorIndexQueryResult where
  similarities : List ℚ
  ids : List Nat
  others : List Obj
deriving DecidableEq

/-- The call `VectorIndexQueryResult(similarities, ids)` as written at
`weaviate.py` line 121.  The dataclass (`types.py` line 35) declares
`others: List[Dict]` with no default value, so Python's generated
`__init__` requires three positional arguments and this two-argument call
raises `TypeError: __init__() missing 1 required positional argument:
'others'`. -/
def VectorIndexQueryResult.fromSimsIds (similarities : List ℚ) (ids : List Nat) :
    Except Err VectorIndexQueryResult :=
  .error .typeError

/-- One item of a Weaviate GraphQL `Get` response to a near-vector query, as
read by `weaviate.py` lines 118–119: `item["_additional"]["distance"]` and
`item["id"]`. -/
structure QueryItem where
  id : Nat
  distance : ℚ
deriving DecidableEq

/-- The `"Get"` payload of a GraphQL query response: a dict from class name
to result list, or absent. -/
structure QueryGetData where
  getMap : Option (List (String × List QueryItem))
deriving DecidableEq

/-- A GraphQL query response as consumed by `WeaviateVectorStore.query`:
the `"data"` key may be absent (e.g. on a GraphQL error reply). -/
structure QueryResponse where
  data : Option QueryGetData
deriving DecidableEq

/-- `weaviate.py` lines 115–116:
`response.get("data", {}).get("Get", {}).get(collection_name, [])` — every
step uses `.get` with a default, so a missing key yields `[]` rather than
an exception. -/
def queryResults (resp : QueryResponse) (coll : String) : List QueryItem :=
  match resp.data with
  | none => []
  | some d =>
    match d.getMap with
    | none => []
    | some m => (dictGet m coll).getD []

/-- `weaviate.py` lines 107–121, `WeaviateVectorStore.query`, at the level of
the remote response: unwrap the response, project out distances and ids, and
construct the result dataclass with two positional arguments. -/
def WeaviateVectorStore.queryOnResponse (resp : QueryResponse) (coll : String)
    (q : VectorIndexQuery) : Except Err VectorIndexQueryResult :=
  let results := queryResults resp coll
  let similarities := results.map (·.distance)
  let ids := results.map (·.id)
  VectorIndexQueryResult.fromSimsIds similarities ids

/-- The ids list computed by `query` at `weaviate.py` line 119, before the
result construction at line 121. -/
def queryIdsOnResponse (resp : QueryResponse) (coll : String) : List Nat :=
  (queryResults resp coll).map (·.id)

/-- An object held by the remote service: Weaviate's object uuid, the record
id and embedding stored by `add` (`weaviate.py` lines 98–102), and the
property dictionary. -/
structure VObj where
  uuid : String
  id : Nat
  vector : List ℚ
  props : Obj
deriving DecidableEq

/-- A remote collection (Weaviate schema class): schema configuration as
assembled by `create` (`weaviate.py` lines 86–91) plus the stored objects. -/
structure WClass where
  properties : List String
  vectorizer : String
  moduleConfig : List (String × PVal)
  objects : List VObj
deriving DecidableEq

/-- The remote schema: a dict from class name to class. -/
abbrev Schema := List (String × WClass)

/-- Lookup of a class by name in the remote schema. -/
def lookupClass (s : Schema) (n : String) : Option WClass :=
  dictGet s n

/-- `client.schema.exists(name)`: whether a class of that name exists. -/
def schemaExists (s : Schema) (n : String) : Bool :=
  match s with
  | [] => false
  | c :: t => c.1 = n || schemaExists t n

/-- Modelled from the spec: `client.schema.delete_class(name)` on the remote
service removes the class and every object it holds; the spec's
whole-collection delete is `delete() -> Result<(), Error>` and carries no
id-not-found channel, so deleting an absent class is a silent no-op here. -/
def schemaDeleteClass (s : Schema) (n : String) : Schema :=
  match s with
  | [] => []
  | c :: t => if c.1 = n then schemaDeleteClass t n else c :: schemaDeleteClass t n

/-- `weaviate.py` lines 104–105: `delete` drops the whole collection's class.
The Python method body has no `return` statement, so the call returns `None`;
the `Unit` component records that absence of any status value. -/
def WeaviateVectorStore.delete (s : Schema) (coll : String) :
    Except Err (Schema × Unit) :=
  .ok (schemaDeleteClass s coll, ())

/-- Insertion into a list sorted by `le` (used to model the remote ranking). -/
def insertSortedBy (le : α → α → Bool) (a : α) : List α → List α
  | [] => [a]
  | b :: t => if le a b then a :: b :: t else b :: insertSortedBy le a t

/-- Insertion sort by `le` (used to model the remote ranking). -/
def sortBy (le : α → α → Bool) : List α → List α
  | [] => []
  | a :: t => insertSortedBy le a (sortBy le t)

/-- Ranking order used by the modelled remote search: ascending distance,
ties broken by ascending id (spec §4.2: "ties broken by ascending id for
determinism"). -/
def rankLE (a b : QueryItem) : Bool :=
  a.distance < b.distance ∨ (a.distance = b.distance ∧ a.id ≤ b.id)

/-- Modelled from the spec: the remote near-vector search behind
`weaviate.py` lines 108–113 (request shaping `query.get ...
.with_near_vector(...).with_limit(top_k).do()`).  Spec §4.2 `search`:
"returns up to `top_k` entries ordered by the collection's distance metric;
ties broken by ascending id".  The distance metric is a parameter `dist`.
A query against an absent class produces a reply whose `Get` payload has no
entry for the class. -/
def remoteNearVector (dist : List ℚ → List ℚ → ℚ) (s : Schema) (coll : String)
    (e : List ℚ) (limit : Nat) : QueryResponse :=
  match lookupClass s coll with
  | none => { data := some { getMap := some [] } }
  | some c =>
    let items := c.objects.map (fun o => QueryItem.mk o.id (dist e o.vector))
    let ranked := (sortBy rankLE items).take limit
    { data := some { getMap := some [(coll, ranked)] } }

/-- `WeaviateVectorStore.query` composed with the modelled remote service:
the full path from a schema state and a `VectorIndexQuery` to the adapter's
return value. -/
def WeaviateVectorStore.queryFull (dist : List ℚ → List ℚ → ℚ) (s : Schema)
    (coll : String) (q : VectorIndexQuery) : Except Err VectorIndexQueryResult :=
  WeaviateVectorStore.queryOnResponse (remoteNearVector dist s coll q.embedding q.top_k) coll q

/-- The ids a query would surface, end to end: remote search followed by the
adapter's id projection (`weaviate.py` line 119). -/
def queryIdsFull (dist : List ℚ → List ℚ → ℚ) (s : Schema) (coll : String)
    (q : VectorIndexQuery) : List Nat :=
  queryIdsOnResponse (remoteNearVector dist s coll q.embedding q.top_k) coll

/-- Squared Euclidean distance, a concrete executable metric used to
instantiate `dist` in witnesses. -/
def sqL2 : List ℚ → List ℚ → ℚ
  | [], [] => 0
  | [], y :: ys => y * y + sqL2 [] ys
  | x :: xs, [] => x * x + sqL2 xs []
  | x :: xs, y :: ys => (x - y) * (x - y) + sqL2 xs ys

/-- Python truthiness of an optional string: `None` and the empty string are
falsy (`weaviate.py` lines 46, 56 test `if not self._api_key` /
`if not self._api_url`). -/
def pyTruthy : Option String → Bool
  | none => false
  | some s => ¬ (s = "")

/-- `kwargs.get(k)` falling back to `os.environ.get(k)` when the kwargs value
is falsy (`weaviate.py` lines 44–47 and 54–57). -/
def kwargsOrEnv (kw env : Option String) : Option String :=
  if pyTruthy kw then kw else env

/-- The Weaviate client handle built at `weaviate.py` lines 67–70. -/
structure WeaviateClient where
  url : String
  apiKey : String
deriving DecidableEq

/-- The constructed `WeaviateVectorStore` instance: its `_collection_name`,
`_api_key`, `_api_url` and `_client` attributes. -/
structure WStore where
  collection : String
  apiKey : String
  apiUrl : String
  client : WeaviateClient
deriving DecidableEq

/-- `weaviate.py` lines 37–75, `WeaviateVectorStore.__init__`.  `initDone` is
the module-level `_weaviate_init_done` flag (line 33) on entry; the returned
`Bool` is its value after the call.  The local variable `client` is assigned
only inside the `if not _weaviate_init_done:` block (lines 63–73); when that
block is skipped, line 75 `self._client = client` reads an unassigned local
and raises `UnboundLocalError`. -/
def WeaviateVectorStore.init (initDone : Bool) (collName : String)
    (kwKey kwUrl envKey envUrl : Option String) : Except Err (Bool × WStore) :=
  let apiKey := kwargsOrEnv kwKey envKey
  if ¬ pyTruthy apiKey then .error .assertionError
  else
    let apiUrl := kwargsOrEnv kwUrl envUrl
    if ¬ pyTruthy apiUrl then .error .assertionError
    else
      if initDone then .error .unboundLocalError
      else
        .ok (true,
          { collection := collName
            apiKey := apiKey.getD ""
            apiUrl := apiUrl.getD ""
            client := { url := apiUrl.getD "", apiKey := apiKey.getD "" } })

/-- Modelled from the spec: `client.schema.create_class(obj)` on the remote
service registers a new, empty class under the object's name; creating a name
that already exists is a remote error. -/
def schemaCreateClass (s : Schema) (n : String) (c : WClass) : Except Err Schema :=
  if schemaExists s n then .error .unexpectedStatus else .ok (s ++ [(n, c)])

/-- `weaviate.py` lines 77–96, `WeaviateVectorStore.create`: default the
`properties` and `module_config` arguments (`x or []` maps both `None` and an
empty value to the default), build the class object, delete any existing
class of that name, then create the class. -/
def WeaviateVectorStore.create (s : Schema) (coll : String) (vectorizer : String)
    (properties : Option (List String)) (moduleConfig : Option (List (String × PVal))) :
    Except Err Schema :=
  let props := properties.getD []
  let mc := moduleConfig.getD []
  let obj : WClass :=
    { properties := props, vectorizer := vectorizer, moduleConfig := mc, objects := [] }
  let s1 := if schemaExists s coll then schemaDeleteClass s coll else s
  schemaCreateClass s1 coll obj

/-- The dict comprehension at `weaviate.py` lines 176–178:
`{key: value for key, value in object_data.items() if key not in
payload.properties_to_delete}` — keep each binding whose key is not listed
for deletion, preserving order. -/
def dropKeys (d : Obj) (dels : List String) : Obj :=
  match d with
  | [] => []
  | kv :: t => if dels.contains kv.1 then dropKeys t dels else kv :: dropKeys t dels

/-- `types.py` lines 52–56: `ObjectPropertyDeletionPayload` dataclass. -/
structure ObjectPropertyDeletionPayload where
  uuid : String
  properties_to_delete : List String
deriving DecidableEq

/-- First object with the given uuid in a class's object list. -/
def findObj (objs : List VObj) (uuid : String) : Option VObj :=
  match objs with
  | [] => none
  | o :: t => if o.uuid = uuid then some o else findObj t uuid

/-- Modelled from the spec: `client.data_object.get_by_id(uuid)` (no class
name passed at `weaviate.py` line 173) scans all classes for the object with
that uuid; the Python client returns `None` when nothing is found, so the
result is the found object's property dict or `none`. -/
def dataObjectGetById (s : Schema) (uuid : String) : Option Obj :=
  match s with
  | [] => none
  | c :: rest =>
    match findObj c.2.objects uuid with
    | some o => some o.props
    | none => dataObjectGetById rest uuid

/-- Replace the properties of the object with the given uuid inside one
class's object list, leaving every other object untouched. -/
def replaceInObjects (objs : List VObj) (uuid : String) (newProps : Obj) : List VObj :=
  objs.map (fun o => if o.uuid = uuid then { o with props := newProps } else o)

/-- Update one class in place: swap in the object list with the replaced
properties. -/
def updObjects (uuid : String) (newProps : Obj) (w : WClass) : WClass :=
  { w with objects := replaceInObjects w.objects uuid newProps }

/-- Modelled from the spec: `client.data_object.replace(data_object=p,
class_name=c, uuid=u)` (`weaviate.py` lines 181–185) overwrites the property
dict of the object `u` in class `c`; it is a remote error if the class or the
object is absent. -/
def dataObjectReplace (s : Schema) (coll uuid : String) (newProps : Obj) :
    Except Err Schema :=
  match lookupClass s coll with
  | none => .error .unexpectedStatus
  | some c =>
    if (findObj c.objects uuid).isSome then
      .ok (s.map (fun e =>
        if e.1 = coll then (e.1, { e.2 with objects := replaceInObjects e.2.objects uuid newProps })
        else e))
    else .error .unexpectedStatus

/-- `weaviate.py` lines 159–185, `WeaviateVectorStore.delete_object_properties`:
fetch the object's property dict (`get_by_id(uuid)['properties']` — if
`get_by_id` returned `None`, subscripting it raises `TypeError`), drop the
keys listed in `properties_to_delete` with a dict comprehension, and replace
the object with the filtered dict. -/
def WeaviateVectorStore.delete_object_properties (s : Schema) (coll : String)
    (payload : ObjectPropertyDeletionPayload) : Except Err Schema :=
  match dataObjectGetById s payload.uuid with
  | none => .error .typeError
  | some object_data =>
    let updated_properties := dropKeys object_data payload.properties_to_delete
    dataObjectReplace s coll payload.uuid updated_properties

/-- `types.py` lines 59–66: `SearchQueryPayload` dataclass. -/
structure SearchQueryPayload where
  query : String
  properties : Option (List String) := none
  limit : Nat := 10
  autocut : Option Nat := none
  additional : Option (List String) := none
deriving DecidableEq

/-- `types.py` lines 69–77: `GenerativeSearchPayload` dataclass. -/
structure GenerativeSearchPayload where
  query : String
  prompt : String
  properties : Option (List String) := none
  limit : Nat := 10
  grouped_task : Bool := false
  grouped_properties : Option (List String) := none
deriving DecidableEq

/-- `types.py` lines 80–85: `LabelBasedSearchPayload` dataclass. -/
structure LabelBasedSearchPayload where
  properties : List String
  filters : Obj
  limit : Nat := 10
deriving DecidableEq

/-- The `"Get"` payload of a GraphQL search response (keyword / hybrid /
generative / label-based): a dict from class name to a list of result
objects, or absent. -/
structure SearchGetData where
  getMap : Option (List (String × List Obj))
deriving DecidableEq

/-- A GraphQL search response; the `"data"` key may be absent. -/
structure SearchResponse where
  data : Option SearchGetData
deriving DecidableEq

/-- The defensive variant of the search-response unwrapping, as written at
`weaviate.py` line 317: `.get` with defaults at every step, yielding `[]`
for any malformed response. -/
def searchGetDefault (resp : SearchResponse) (coll : String) : List Obj :=
  match resp.data with
  | none => []
  | some d =>
    match d.getMap with
    | none => []
    | some m => (dictGet m coll).getD []

/-- `weaviate.py` lines 187–220, `WeaviateVectorStore.keyword_search`, at the
level of the remote response: `data = response.get('data', {})` tolerates a
missing `data` key, but `data['Get'][collection]` (line 219) uses bracket
subscripts, so a missing `Get` key or class entry raises `KeyError`; on
success the results go only into `others`, with empty `similarities` and
`ids` (line 220). -/
def WeaviateVectorStore.keyword_search (resp : SearchResponse) (coll : String)
    (payload : SearchQueryPayload) : Except Err VectorIndexQueryResult :=
  match resp.data with
  | none => .error .keyError
  | some d =>
    match d.getMap with
    | none => .error .keyError
    | some m =>
      match dictGet m coll with
      | none => .error .keyError
      | some results => .ok ⟨[], [], results⟩

/-- `weaviate.py` lines 222–252, `WeaviateVectorStore.hybrid_search`: same
response unwrapping as `keyword_search` (bracket subscripts at line 251),
results placed only in `others` (line 252). -/
def WeaviateVectorStore.hybrid_search (resp : SearchResponse) (coll : String)
    (payload : SearchQueryPayload) : Except Err VectorIndexQueryResult :=
  match resp.data with
  | none => .error .keyError
  | some d =>
    match d.getMap with
    | none => .error .keyError
    | some m =>
      match dictGet m coll with
      | none => .error .keyError
      | some results => .ok ⟨[], [], results⟩

/-- `weaviate.py` lines 254–293, `WeaviateVectorStore.generative_search`: the
`grouped_task` flag only changes the request that is sent (lines 278–284);
the response unwrapping (bracket subscripts at line 292) and the result
construction (line 293) match `keyword_search`. -/
def WeaviateVectorStore.generative_search (resp : SearchResponse) (coll : String)
    (payload : GenerativeSearchPayload) : Except Err VectorIndexQueryResult :=
  match resp.data with
  | none => .error .keyError
  | some d =>
    match d.getMap with
    | none => .error .keyError
    | some m =>
      match dictGet m coll with
      | none => .error .keyError
      | some results => .ok ⟨[], [], results⟩

/-- `weaviate.py` lines 295–318, `WeaviateVectorStore.label_based_search`:
here the unwrapping uses `.get` with defaults at line 317
(`data.get('Get', {}).get(collection_name, [])`), so a malformed response
yields an empty result list instead of an exception; results go only into
`others` (line 318). -/
def WeaviateVectorStore.label_based_search (resp : SearchResponse) (coll : String)
    (payload : LabelBasedSearchPayload) : Except Err VectorIndexQueryResult :=
  let results :=
    match resp.data with
    | none => []
    | some d =>
      match d.getMap with
      | none => []
      | some m => (dictGet m coll).getD []
  .ok ⟨[], [], results⟩

/-- Two concrete stored objects used to evaluate the adapter on closed inputs. -/
def sampleObjs : List VObj :=
  [ { uuid := "u1", id := 1, vector := [1, 0], props := [("title", PVal.str "a")] },
    { uuid := "u2", id := 2, vector := [0, 1], props := [("title", PVal.str "b")] } ]

/-- A concrete remote class holding `sampleObjs`. -/
def sampleClass : WClass :=
  { properties := ["title"], vectorizer := "text2vec-openai", moduleConfig := [],
    objects := sampleObjs }

/-- A concrete remote schema with one class, `"Books"`. -/
def sampleSchema : Schema := [("Books", sampleClass)]

/-- A concrete result object list for search responses. -/
def sampleHits : List Obj := [[("t", PVal.str "x")]]

/-- A concrete well-formed search response holding `sampleHits` under the
class `"Books"`. -/
def sampleSearchResp : SearchResponse :=
  { data := some { getMap := some [("Books", sampleHits)] } }

/-- Dot product of rational vectors (modelling aid for the spec's numeric
semantics). -/
def dotQ : List ℚ → List ℚ → ℚ
  | [], _ => 0
  | _ :: _, [] => 0
  | x :: xs, y :: ys => x * y + dotQ xs ys

/-- Squared Euclidean norm: `normSq a = dotQ a a`, so `normSq a = 0` exactly
characterises the spec's "zero-norm vectors". -/
def normSq (a : List ℚ) : ℚ := dotQ a a

/-- Modelled from the spec (§4.2 numeric semantics, absent from the adapter,
which delegates all distance computation to the remote service): "cosine
distance computed as `1 - dot(a,b)/(|a|*|b|)`; zero-norm vectors fail with
`InvalidVector` rather than dividing by zero". -/
noncomputable def cosineDistance (a b : List ℚ) : Except Err ℝ :=
  if normSq a = 0 ∨ normSq b = 0 then .error .invalidVector
  else .ok (1 - (dotQ a b : ℝ) / (Real.sqrt (normSq a) * Real.sqrt (normSq b)))

/-- Modelled from the spec (§3, restricted to the fields `add` persists): a
stored record, id and embedding. -/
abbrev VectorRecord := Nat × List ℚ

/-- Serialization of one record: id token, length token, then the embedding
entries. -/
def encodeRecord (r : VectorRecord) : List ℚ :=
  (r.1 : ℚ) :: (r.2.length : ℚ) :: r.2

/-- Serialization of a record store: records in order. -/
def encodeRecords : List VectorRecord → List ℚ
  | [] => []
  | r :: t => encodeRecord r ++ encodeRecords t

/-- Checksum over a token stream: token count plus token sum. -/
def checksum (l : List ℚ) : ℚ := (l.length : ℚ) + l.sum

/-- Modelled from the spec (§4.5): `save(path)` writes a snapshot of the
VectorRecord Store; the durable stream is modelled as the token stream, led
by its checksum.  (Scoped handles and write-to-temp-then-rename atomicity are
filesystem behaviour outside a shallow embedding.) -/
def save (recs : List VectorRecord) : List ℚ :=
  checksum (encodeRecords recs) :: encodeRecords recs

/-- A token that is a natural number, as required for id and length fields;
anything else is a format error. -/
def ratToNat? (q : ℚ) : Option Nat :=
  if q.den = 1 ∧ 0 ≤ q.num then some q.num.toNat else none

/-- Parser for the record-store payload: id token, length token, that many
embedding entries, repeated to the end of the stream. -/
def parseRecords (l : List ℚ) : Option (List VectorRecord) :=
  match l with
  | [] => some []
  | [_] => none
  | idTok :: lenTok :: rest =>
    match ratToNat? idTok, ratToNat? lenTok with
    | some id, some n =>
      if n ≤ rest.length then
        match parseRecords (rest.drop n) with
        | some recs => some ((id, rest.take n) :: recs)
        | none => none
      else none
    | _, _ => none
termination_by l.length
decreasing_by simp [List.length_drop]; omega

/-- Modelled from the spec (§4.5): `load(path)` reconstructs the Collection
and "fails with `CorruptData` if checksum/format validation fails". -/
def load (stream : List ℚ) : Except Err (List VectorRecord) :=
  match stream with
  | [] => .error .corruptData
  | c :: payload =>
    if checksum payload = c then
      match parseRecords payload with
      | some recs => .ok recs
      | none => .error .corruptData
    else .error .corruptData

/-- Modelled from the spec (§4.2): the Index Engine search over a record
store — rank all records by the metric's distance to the query embedding
(ties by ascending id) and truncate to `top_k`.  Used to compare query
results before `save` and after `load`. -/
def searchRecords (dist : List ℚ → List ℚ → ℚ) (recs : List VectorRecord)
    (e : List ℚ) (top_k : Nat) : List QueryItem :=
  (sortBy rankLE (recs.map (fun r => QueryItem.mk r.1 (dist e r.2)))).take top_k

/-- C1: the claim asserts `query` returns a `VectorIndexQueryResult` with
equal-length `ids` and `similarities` of length at most `top_k`, sorted by
the metric.  On this concrete, well-formed two-object store the remote reply
is well-formed and the adapter duly computes `ids = [1, 2]`, yet `query`
raises `TypeError` instead of returning any result: line 121 of
`weaviate.py` calls the `VectorIndexQueryResult` constructor with two
positional arguments while the dataclass (`types.py` line 35) requires a
third, `others`, that has no default. -/
theorem query_result_construction_raises :
    WeaviateVectorStore.queryFull sqL2 sampleSchema "Books" ⟨[1, 0], 2⟩ =
      .error .typeError ∧
    queryIdsFull sqL2 sampleSchema "Books" ⟨[1, 0], 2⟩ = [1, 2] := by
  constructor
  · rfl
  · norm_num [queryIdsFull, queryIdsOnResponse, remoteNearVector, lookupClass,
      dictGet, sampleSchema, sampleClass, sampleObjs, queryResults, sortBy,
      insertSortedBy, rankLE, sqL2]

/-- C2: the claim asserts `query` with `top_k = 0` returns an empty result
and does not fail.  On this concrete store the remote reply for limit 0 is
the empty list and the adapter computes empty `similarities` and `ids`, yet
the call still fails: the two-argument `VectorIndexQueryResult` construction
at `weaviate.py` line 121 raises `TypeError` for every `top_k`, including 0. -/
theorem query_topk_zero_raises :
    WeaviateVectorStore.queryFull sqL2 sampleSchema "Books" ⟨[1, 0], 0⟩ =
      .error .typeError ∧
    queryIdsFull sqL2 sampleSchema "Books" ⟨[1, 0], 0⟩ = [] := by
  constructor
  · rfl
  · norm_num [queryIdsFull, queryIdsOnResponse, remoteNearVector, lookupClass,
      dictGet, sampleSchema, sampleClass, sampleObjs, queryResults, sortBy,
      insertSortedBy, rankLE, sqL2]

/-- C8: the claim asserts every construction with the API key and URL
available succeeds and binds `self._client`, including constructions after
the first in the same process.  The first construction (flag `false`)
succeeds and binds the client; a second construction in the same process
(flag `true`, set by the first) skips the `if not _weaviate_init_done:`
block, so the local `client` is never assigned and line 75
`self._client = client` raises `UnboundLocalError` — even though the key and
URL are available. -/
theorem second_construction_unbound_local :
    WeaviateVectorStore.init false "C" (some "key") (some "url") none none =
      .ok (true, { collection := "C", apiKey := "key", apiUrl := "url",
                   client := { url := "url", apiKey := "key" } }) ∧
    WeaviateVectorStore.init true "C" (some "key") (some "url") none none =
      .error .unboundLocalError := by
  exact ⟨rfl, rfl⟩

/-- Deleting from a schema twice with the same name removes nothing new. -/
lemma schemaDeleteClass_idem (s : Schema) (n : String) :
    schemaDeleteClass (schemaDeleteClass s n) n = schemaDeleteClass s n := by
  induction s with
  | nil => rfl
  | cons c t ih =>
    by_cases h : c.1 = n <;> simp [schemaDeleteClass, h, ih]

/-- No class of name `n` survives `schemaDeleteClass s n`. -/
lemma lookupClass_deleteClass_self (s : Schema) (n : String) :
    lookupClass (schemaDeleteClass s n) n = none := by
  induction s with
  | nil => rfl
  | cons c t ih =>
    by_cases h : c.1 = n <;> simp [schemaDeleteClass, lookupClass, dictGet, h] <;>
      simpa [lookupClass] using ih

/-- C5 counterexample: the claim says the second of two successive `delete`
calls "returns NotFound or false rather than succeeding".  On the concrete
one-class store, the first `delete` drops the class; the second call succeeds
again, returning `None` (the method has no return value at all) — neither a
`NotFound` failure nor `false`. -/
theorem second_delete_succeeds_returning_none :
    WeaviateVectorStore.delete sampleSchema "Books" =
      .ok (schemaDeleteClass sampleSchema "Books", ()) ∧
    WeaviateVectorStore.delete (schemaDeleteClass sampleSchema "Books") "Books" =
      .ok (schemaDeleteClass sampleSchema "Books", ()) := by
  refine ⟨rfl, ?_⟩
  simp only [WeaviateVectorStore.delete, schemaDeleteClass_idem]

/-- C5 amended: calling `delete` twice in succession is safe — the second
call succeeds again, returns `None` exactly like the first (not `NotFound`
or `false`; the method has no return value), and leaves the remote schema
unchanged. -/
theorem delete_twice_idempotent (s : Schema) (coll : String) (st' : Schema) (u : Unit)
    (h : WeaviateVectorStore.delete s coll = .ok (st', u)) :
    WeaviateVectorStore.delete st' coll = .ok (st', ()) := by
  have hst : st' = schemaDeleteClass s coll := by
    have h' := h
    simp only [WeaviateVectorStore.delete, Except.ok.injEq, Prod.mk.injEq] at h'
    exact h'.1.symm
  subst hst
  simp only [WeaviateVectorStore.delete, schemaDeleteClass_idem]

/-- Witness for `delete_twice_idempotent` at the concrete one-class store. -/
theorem delete_twice_idempotent_witness :
    WeaviateVectorStore.delete (schemaDeleteClass sampleSchema "Books") "Books" =
      .ok (schemaDeleteClass sampleSchema "Books", ()) :=
  delete_twice_idempotent sampleSchema "Books" (schemaDeleteClass sampleSchema "Books") () rfl

/-- C3: once `delete` commits, the collection's class is gone from the remote
schema, so the modelled near-vector search yields no entries for the
collection and every subsequent query surfaces no ids at all — in particular
no previously stored id ever reappears.  (Queries do not mutate the schema,
so this covers every later query against the deleted collection; the final
result construction additionally raises `TypeError`, see C1, so a fortiori no
id is ever returned to a caller.) -/
theorem deleted_collection_ids_absent (dist : List ℚ → List ℚ → ℚ) (s : Schema)
    (coll : String) (st' : Schema) (u : Unit)
    (h : WeaviateVectorStore.delete s coll = .ok (st', u)) :
    ∀ (q : VectorIndexQuery) (i : Nat), i ∉ queryIdsFull dist st' coll q := by
  have hst : st' = schemaDeleteClass s coll := by
    have h' := h
    simp only [WeaviateVectorStore.delete, Except.ok.injEq, Prod.mk.injEq] at h'
    exact h'.1.symm
  subst hst
  intro q i
  simp [queryIdsFull, queryIdsOnResponse, remoteNearVector,
    lookupClass_deleteClass_self, queryResults, dictGet]

/-- Witness for `deleted_collection_ids_absent`: delete the concrete store's
collection, then query it — id 1 (previously stored) is absent. -/
theorem deleted_collection_ids_absent_witness :
    WeaviateVectorStore.delete sampleSchema "Books" = .ok ([], ()) ∧
    (1 : Nat) ∉ queryIdsFull sqL2 [] "Books" ⟨[1, 0], 3⟩ :=
  ⟨rfl, deleted_collection_ids_absent sqL2 sampleSchema "Books" [] () rfl ⟨[1, 0], 3⟩ 1⟩

/-- After deleting class `n`, no class of that name exists. -/
lemma schemaExists_deleteClass_self (s : Schema) (n : String) :
    schemaExists (schemaDeleteClass s n) n = false := by
  induction s with
  | nil => rfl
  | cons c t ih => by_cases h : c.1 = n <;> simp [schemaDeleteClass, schemaExists, h, ih]

/-- Deleting an absent class changes nothing. -/
lemma deleteClass_of_not_exists (s : Schema) (n : String)
    (h : schemaExists s n = false) : schemaDeleteClass s n = s := by
  induction s with
  | nil => rfl
  | cons c t ih =>
    simp only [schemaExists, Bool.or_eq_false_iff, decide_eq_false_iff_not] at h
    simp [schemaDeleteClass, h.1, ih h.2]

/-- A class appended at the end is reported as existing. -/
lemma schemaExists_append_single (s : Schema) (n : String) (c : WClass) :
    schemaExists (s ++ [(n, c)]) n = true := by
  induction s with
  | nil => simp [schemaExists]
  | cons a t ih => simp [schemaExists, ih]

/-- Looking up a freshly appended class finds it when the name was free. -/
lemma lookupClass_append_single (s : Schema) (n : String) (c : WClass)
    (h : schemaExists s n = false) : lookupClass (s ++ [(n, c)]) n = some c := by
  induction s with
  | nil => simp [lookupClass, dictGet]
  | cons a t ih =>
    simp only [schemaExists, Bool.or_eq_false_iff, decide_eq_false_iff_not] at h
    simpa [lookupClass, dictGet, h.1] using ih h.2

/-- Deleting a freshly appended class recovers the prior schema when the name
was free. -/
lemma deleteClass_append_single (s : Schema) (n : String) (c : WClass)
    (h : schemaExists s n = false) : schemaDeleteClass (s ++ [(n, c)]) n = s := by
  induction s with
  | nil => simp [schemaDeleteClass]
  | cons a t ih =>
    simp only [schemaExists, Bool.or_eq_false_iff, decide_eq_false_iff_not] at h
    simp [schemaDeleteClass, h.1, ih h.2]

/-- C9: `create` always succeeds and installs a fresh empty class under the
collection's name, whatever the prior schema held — an existing class of that
name is deleted first (`weaviate.py` lines 93–94).  Consequently running
`create` twice with the same arguments equals running it once. -/
theorem create_fresh_and_idempotent (s : Schema) (coll vectorizer : String)
    (properties : Option (List String)) (moduleConfig : Option (List (String × PVal))) :
    (WeaviateVectorStore.create s coll vectorizer properties moduleConfig).bind
        (fun s2 => WeaviateVectorStore.create s2 coll vectorizer properties moduleConfig) =
      WeaviateVectorStore.create s coll vectorizer properties moduleConfig ∧
    (WeaviateVectorStore.create s coll vectorizer properties moduleConfig).map
        (fun s2 => lookupClass s2 coll) =
      .ok (some { properties := properties.getD [], vectorizer := vectorizer,
                  moduleConfig := moduleConfig.getD [], objects := [] }) := by
  have hs1 : (if schemaExists s coll then schemaDeleteClass s coll else s) =
      schemaDeleteClass s coll := by
    by_cases h : schemaExists s coll
    · simp [h]
    · simp only [Bool.not_eq_true] at h
      simp [h, deleteClass_of_not_exists s coll h]
  have hfirst :
      WeaviateVectorStore.create s coll vectorizer properties moduleConfig =
        .ok (schemaDeleteClass s coll ++
          [(coll, { properties := properties.getD [], vectorizer := vectorizer,
                    moduleConfig := moduleConfig.getD [], objects := ([] : List VObj) })]) := by
    simp [WeaviateVectorStore.create, hs1, schemaCreateClass,
      schemaExists_deleteClass_self]
  refine ⟨?_, ?_⟩
  · rw [hfirst]
    simp only [Except.bind]
    simp [WeaviateVectorStore.create, schemaExists_append_single,
      deleteClass_append_single _ _ _ (schemaExists_deleteClass_self s coll),
      schemaCreateClass, schemaExists_deleteClass_self, hfirst]
  · rw [hfirst]
    simp [Except.map,
      lookupClass_append_single _ _ _ (schemaExists_deleteClass_self s coll)]

/-- Dict lookup after the deletion comprehension: keys listed for deletion
are gone, every other key keeps its value. -/
lemma dictGet_dropKeys (d : Obj) (dels : List String) (k : String) :
    dictGet (dropKeys d dels) k =
      if dels.contains k then none else dictGet d k := by
  induction d with
  | nil => simp [dropKeys, dictGet]
  | cons kv t ih =>
    by_cases hk : kv.1 = k
    · subst hk
      by_cases hc : kv.1 ∈ dels <;> simp [dropKeys, dictGet, hc, ih]
    · by_cases hc : kv.1 ∈ dels <;> simp [dropKeys, dictGet, hc, hk, ih]

/-- A successful `findObj` returns a member with the requested uuid. -/
lemma findObj_eq_some (objs : List VObj) (u : String) (o : VObj)
    (h : findObj objs u = some o) : o ∈ objs ∧ o.uuid = u := by
  induction objs with
  | nil => simp [findObj] at h
  | cons x t ih =>
    by_cases hx : x.uuid = u
    · simp [findObj, hx] at h
      subst h
      exact ⟨List.mem_cons_self x t, hx⟩
    · simp [findObj, hx] at h
      obtain ⟨hm, hu⟩ := ih h
      exact ⟨List.mem_cons_of_mem x hm, hu⟩

/-- Dict lookup after updating the entry of one key in place: that key's
value is transformed, every other key is untouched. -/
lemma dictGet_map_update {β : Type} (s : List (String × β)) (coll : String)
    (g : β → β) (cn : String) :
    dictGet (s.map (fun e => if e.1 = coll then (e.1, g e.2) else e)) cn =
      if cn = coll then (dictGet s cn).map g else dictGet s cn := by
  induction s with
  | nil => by_cases h : cn = coll <;> simp [dictGet, h]
  | cons e t ih =>
    rw [List.map_cons]
    by_cases he : e.1 = coll
    · rw [if_pos he]
      by_cases hec : e.1 = cn
      · have hcn : cn = coll := hec ▸ he
        simp [dictGet, hec, hcn]
      · simp only [dictGet, hec, if_false, ih]
    · rw [if_neg he]
      by_cases hec : e.1 = cn
      · have hcn : ¬ (cn = coll) := fun h => he (hec.trans h)
        simp [dictGet, hec, hcn]
      · simp only [dictGet, hec, if_false, ih]

/-- C4: `delete_object_properties` removes exactly the listed property keys
from the object identified by `uuid` and changes nothing else: lookups of the
deleted keys on that object now fail, lookups of every other key return their
old value, the object's uuid, record id and vector are untouched, every other
object of the collection survives unchanged, and every other class of the
schema is untouched. -/
theorem delete_object_properties_exact (s : Schema) (coll : String)
    (payload : ObjectPropertyDeletionPayload) (c : WClass) (o : VObj)
    (hc : lookupClass s coll = some c)
    (ho : findObj c.objects payload.uuid = some o)
    (hg : dataObjectGetById s payload.uuid = some o.props) :
    ∃ s2, WeaviateVectorStore.delete_object_properties s coll payload = .ok s2 ∧
      (∀ cn, cn ≠ coll → lookupClass s2 cn = lookupClass s cn) ∧
      ∃ c2, lookupClass s2 coll = some c2 ∧
        c2.properties = c.properties ∧
        c2.vectorizer = c.vectorizer ∧
        c2.moduleConfig = c.moduleConfig ∧
        c2.objects.length = c.objects.length ∧
        (∀ x ∈ c.objects, x.uuid ≠ payload.uuid → x ∈ c2.objects) ∧
        ∃ o2 ∈ c2.objects, o2.uuid = payload.uuid ∧ o2.id = o.id ∧
          o2.vector = o.vector ∧
          ∀ k, dictGet o2.props k =
            if payload.properties_to_delete.contains k then none
            else dictGet o.props k := by
  have houuid : o ∈ c.objects ∧ o.uuid = payload.uuid :=
    findObj_eq_some c.objects payload.uuid o ho
  have hbody : WeaviateVectorStore.delete_object_properties s coll payload =
      dataObjectReplace s coll payload.uuid
        (dropKeys o.props payload.properties_to_delete) := by
    simp [WeaviateVectorStore.delete_object_properties, hg]
  have hiss : (findObj c.objects payload.uuid).isSome := by simp [ho]
  have hrep : dataObjectReplace s coll payload.uuid
      (dropKeys o.props payload.properties_to_delete) =
      .ok (s.map (fun e => if e.1 = coll then
        (e.1, updObjects payload.uuid (dropKeys o.props payload.properties_to_delete) e.2)
        else e)) := by
    simp [dataObjectReplace, hc, hiss, updObjects]
  refine ⟨_, hbody.trans hrep, ?_, ?_⟩
  · intro cn hcn
    have hm := dictGet_map_update s coll
      (updObjects payload.uuid (dropKeys o.props payload.properties_to_delete)) cn
    simpa [lookupClass, hcn] using hm
  · have hm := dictGet_map_update s coll
      (updObjects payload.uuid (dropKeys o.props payload.properties_to_delete)) coll
    refine ⟨updObjects payload.uuid (dropKeys o.props payload.properties_to_delete) c,
      ?_, rfl, rfl, rfl, ?_, ?_, ?_⟩
    · have hcd : dictGet s coll = some c := hc
      show dictGet _ coll = _
      rw [hm, if_pos rfl, hcd]
      rfl
    · simp [updObjects, replaceInObjects]
    · intro x hx hxu
      exact List.mem_map.mpr ⟨x, hx, by simp [hxu]⟩
    · refine ⟨{ o with props := dropKeys o.props payload.properties_to_delete },
        List.mem_map.mpr ⟨o, houuid.1, by simp [houuid.2]⟩, houuid.2, rfl, rfl, ?_⟩
      intro k
      simpa using dictGet_dropKeys o.props payload.properties_to_delete k

/-- Witness for `delete_object_properties_exact`: on the concrete store,
deleting the `"title"` property of object `"u1"` succeeds and the object's
`"title"` lookup afterwards finds nothing. -/
theorem delete_object_properties_exact_witness :
    ∃ s2, WeaviateVectorStore.delete_object_properties sampleSchema "Books"
        ⟨"u1", ["title"]⟩ = .ok s2 ∧
      ∃ c2, lookupClass s2 "Books" = some c2 ∧
        ∃ o2 ∈ c2.objects, o2.uuid = "u1" ∧ dictGet o2.props "title" = none := by
  obtain ⟨s2, hok, hframe, c2, hc2, hp, hv, hmc, hlen, hfr, o2, hmem, huuid, hid, hvec, hprops⟩ :=
    delete_object_properties_exact sampleSchema "Books" ⟨"u1", ["title"]⟩ sampleClass
      { uuid := "u1", id := 1, vector := [1, 0], props := [("title", PVal.str "a")] }
      rfl rfl rfl
  exact ⟨s2, hok, c2, hc2, o2, hmem, huuid, by simpa using hprops "title"⟩

/-- C10: whenever `keyword_search`, `hybrid_search`, `generative_search` or
`label_based_search` returns a `VectorIndexQueryResult`, its `similarities`
and `ids` lists are empty and every returned object sits only in the
`others` field (equal to the response's unwrapped result list). -/
theorem search_methods_empty_sims_ids (resp : SearchResponse) (coll : String)
    (pk ph : SearchQueryPayload) (pg : GenerativeSearchPayload)
    (pl : LabelBasedSearchPayload) :
    (∀ r, WeaviateVectorStore.keyword_search resp coll pk = .ok r →
        r.similarities = [] ∧ r.ids = [] ∧ r.others = searchGetDefault resp coll) ∧
    (∀ r, WeaviateVectorStore.hybrid_search resp coll ph = .ok r →
        r.similarities = [] ∧ r.ids = [] ∧ r.others = searchGetDefault resp coll) ∧
    (∀ r, WeaviateVectorStore.generative_search resp coll pg = .ok r →
        r.similarities = [] ∧ r.ids = [] ∧ r.others = searchGetDefault resp coll) ∧
    (∀ r, WeaviateVectorStore.label_based_search resp coll pl = .ok r →
        r.similarities = [] ∧ r.ids = [] ∧ r.others = searchGetDefault resp coll) := by
  obtain ⟨dOpt⟩ := resp
  cases dOpt with
  | none =>
    refine ⟨?_, ?_, ?_, ?_⟩ <;> intro r h
    · simp [WeaviateVectorStore.keyword_search] at h
    · simp [WeaviateVectorStore.hybrid_search] at h
    · simp [WeaviateVectorStore.generative_search] at h
    · simp only [WeaviateVectorStore.label_based_search, Except.ok.injEq] at h
      subst h
      exact ⟨rfl, rfl, rfl⟩
  | some d =>
    obtain ⟨gm⟩ := d
    cases gm with
    | none =>
      refine ⟨?_, ?_, ?_, ?_⟩ <;> intro r h
      · simp [WeaviateVectorStore.keyword_search] at h
      · simp [WeaviateVectorStore.hybrid_search] at h
      · simp [WeaviateVectorStore.generative_search] at h
      · simp only [WeaviateVectorStore.label_based_search, Except.ok.injEq] at h
        subst h
        exact ⟨rfl, rfl, rfl⟩
    | some m =>
      cases hm : dictGet m coll with
      | none =>
        refine ⟨?_, ?_, ?_, ?_⟩ <;> intro r h
        · simp [WeaviateVectorStore.keyword_search, hm] at h
        · simp [WeaviateVectorStore.hybrid_search, hm] at h
        · simp [WeaviateVectorStore.generative_search, hm] at h
        · simp only [WeaviateVectorStore.label_based_search, Except.ok.injEq] at h
          subst h
          refine ⟨rfl, rfl, ?_⟩
          simp [searchGetDefault, hm]
      | some results =>
        refine ⟨?_, ?_, ?_, ?_⟩ <;> intro r h
        · simp only [WeaviateVectorStore.keyword_search, hm, Except.ok.injEq] at h
          subst h
          refine ⟨rfl, rfl, ?_⟩
          simp [searchGetDefault, hm]
        · simp only [WeaviateVectorStore.hybrid_search, hm, Except.ok.injEq] at h
          subst h
          refine ⟨rfl, rfl, ?_⟩
          simp [searchGetDefault, hm]
        · simp only [WeaviateVectorStore.generative_search, hm, Except.ok.injEq] at h
          subst h
          refine ⟨rfl, rfl, ?_⟩
          simp [searchGetDefault, hm]
        · simp only [WeaviateVectorStore.label_based_search, Except.ok.injEq] at h
          subst h
          refine ⟨rfl, rfl, ?_⟩
          simp [searchGetDefault, hm]

/-- Witness for `search_methods_empty_sims_ids`: the four search methods on a
concrete well-formed response all return results with empty `similarities`
and `ids` and the response's objects in `others`. -/
theorem search_methods_empty_sims_ids_witness :
    ((⟨[], [], sampleHits⟩ : VectorIndexQueryResult).similarities = [] ∧
      (⟨[], [], sampleHits⟩ : VectorIndexQueryResult).ids = [] ∧
      (⟨[], [], sampleHits⟩ : VectorIndexQueryResult).others =
        searchGetDefault sampleSearchResp "Books") ∧
    ((⟨[], [], sampleHits⟩ : VectorIndexQueryResult).similarities = [] ∧
      (⟨[], [], sampleHits⟩ : VectorIndexQueryResult).ids = [] ∧
      (⟨[], [], sampleHits⟩ : VectorIndexQueryResult).others =
        searchGetDefault sampleSearchResp "Books") := by
  have h := search_methods_empty_sims_ids sampleSearchResp "Books"
    { query := "q" } { query := "q" } { query := "q", prompt := "p" }
    { properties := ["t"], filters := [] }
  exact ⟨h.1 ⟨[], [], sampleHits⟩ rfl, h.2.2.2 ⟨[], [], sampleHits⟩ rfl⟩

/-- A sum of squares is nonnegative. -/
lemma normSq_nonneg (a : List ℚ) : 0 ≤ normSq a := by
  induction a with
  | nil => simp [normSq, dotQ]
  | cons x xs ih =>
    have hrw : normSq (x :: xs) = x * x + normSq xs := rfl
    rw [hrw]
    have := mul_self_nonneg x
    linarith

/-- A vector has zero norm exactly when all its components are zero. -/
lemma normSq_eq_zero_iff (a : List ℚ) : normSq a = 0 ↔ ∀ x ∈ a, x = 0 := by
  induction a with
  | nil => simp [normSq, dotQ]
  | cons x xs ih =>
    have hrw : normSq (x :: xs) = x * x + normSq xs := rfl
    rw [hrw, add_eq_zero_iff_of_nonneg (mul_self_nonneg x) (normSq_nonneg xs)]
    simp [mul_self_eq_zero, ih]

/-- C6: the modelled cosine distance follows the spec's formula
`1 - dot(a,b)/(|a|*|b|)`, a zero-norm operand fails with `InvalidVector`,
and in the success case the denominator `|a|*|b|` is provably nonzero, so no
division by zero occurs; moreover "zero-norm" coincides with the vector
having only zero components. -/
theorem cosine_distance_zero_norm_guard (a b : List ℚ) :
    ((normSq a = 0 ∨ normSq b = 0) → cosineDistance a b = .error .invalidVector) ∧
    (normSq a ≠ 0 → normSq b ≠ 0 →
      Real.sqrt (normSq a) * Real.sqrt (normSq b) ≠ 0 ∧
      cosineDistance a b =
        .ok (1 - (dotQ a b : ℝ) / (Real.sqrt (normSq a) * Real.sqrt (normSq b)))) ∧
    (normSq a = 0 ↔ ∀ x ∈ a, x = 0) := by
  refine ⟨?_, ?_, normSq_eq_zero_iff a⟩
  · intro h
    simp [cosineDistance, h]
  · intro ha hb
    have hapos : (0 : ℝ) < Real.sqrt (normSq a) :=
      Real.sqrt_pos.mpr (by
        have := normSq_nonneg a
        have h1 : (0 : ℚ) < normSq a := lt_of_le_of_ne this (Ne.symm ha)
        exact_mod_cast h1)
    have hbpos : (0 : ℝ) < Real.sqrt (normSq b) :=
      Real.sqrt_pos.mpr (by
        have := normSq_nonneg b
        have h1 : (0 : ℚ) < normSq b := lt_of_le_of_ne this (Ne.symm hb)
        exact_mod_cast h1)
    refine ⟨by positivity, ?_⟩
    simp [cosineDistance, ha, hb]

/-- Witness for `cosine_distance_zero_norm_guard`: the zero vector `[0]`
fails with `InvalidVector`; the nonzero vector `[1]` against itself takes the
formula branch. -/
theorem cosine_distance_zero_norm_guard_witness :
    cosineDistance [0] [1] = .error .invalidVector ∧
    cosineDistance [1] [1] =
      .ok (1 - (dotQ [1] [1] : ℝ) /
        (Real.sqrt (normSq [1]) * Real.sqrt (normSq [1]))) := by
  constructor
  · exact (cosine_distance_zero_norm_guard [0] [1]).1
      (Or.inl (by norm_num [normSq, dotQ]))
  · exact ((cosine_distance_zero_norm_guard [1] [1]).2.1
      (by norm_num [normSq, dotQ]) (by norm_num [normSq, dotQ])).2

/-- Natural-number tokens parse back to themselves. -/
lemma ratToNat?_natCast (n : Nat) : ratToNat? (n : ℚ) = some n := by
  simp [ratToNat?, Rat.den_natCast, Rat.num_natCast]

/-- The payload parser inverts the record serializer. -/
lemma parseRecords_encodeRecords (recs : List VectorRecord) :
    parseRecords (encodeRecords recs) = some recs := by
  induction recs with
  | nil => simp [encodeRecords, parseRecords]
  | cons r t ih =>
    obtain ⟨id, vec⟩ := r
    show parseRecords ((id : ℚ) :: (vec.length : ℚ) :: (vec ++ encodeRecords t)) = _
    simp only [parseRecords, ratToNat?_natCast]
    rw [if_pos (by simp)]
    rw [List.take_left, List.drop_left, ih]

/-- C7: a `save` followed by a `load` succeeds (the checksum and format
validation pass on a stream `save` produced) and reconstructs the record
store exactly, so the modelled search returns identical query results on the
reloaded store — for every prior store state, i.e. after any sequence of
prior mutations, and for every metric, query embedding and `top_k`. -/
theorem save_load_roundtrip_preserves_query (dist : List ℚ → List ℚ → ℚ)
    (recs : List VectorRecord) (e : List ℚ) (top_k : Nat) :
    load (save recs) = .ok recs ∧
    (load (save recs)).map (fun recs2 => searchRecords dist recs2 e top_k) =
      .ok (searchRecords dist recs e top_k) := by
  have hload : load (save recs) = .ok recs := by
    simp [save, load, parseRecords_encodeRecords]
  exact ⟨hload, by rw [hload]; rfl⟩
